import Mathlib

/-!
Verification of the factory-simulation core (`Semi-engineer/factory_sim`).

Shallow embedding conventions:
* Python `float` is modelled as `ℚ`, Python `int` as `ℤ` (list lengths and
  object ids as `ℕ`).
* Methods that mutate `self` become functions returning the updated record
  (together with the Python return value, when there is one).
* Wall-clock reads (`time.time()`) become an explicit `wall_now : ℚ` argument.
* The stochastic draws inside `Machine.update` / `Machine._complete_job`
  (`random.random() < rate`, `random.uniform(5, 30)`) become an explicit
  `UpdateOracle` argument recording the outcome of each draw; a comparison
  outcome `true` is realisable exactly when the corresponding rate is positive,
  which holds for the concrete configs used below.
* Purely visual fields of the source classes (`x`, `y`, `width`, `height`,
  `animation_phase`, `status_color`, `maintenance_time`, and the `_cached_oee`
  slot, none of which feed back into simulation behaviour) are omitted from the
  records, as are the methods that only read or write them.
* The repository contains two variants of the data model: the package
  `src/models/` + `src/simulation/` (namespace `Models` below) and the legacy
  monolithic `src/models.py` (namespace `Legacy` below).
-/

namespace FactorySim

/-- Python `SimulationConfig` (src/config/simulation_config.py), restricted to the
fields read by the code modelled in this file; defaults as in the source. -/
structure SimulationConfig where
  material_cost : ℚ := 5
  defect_cost : ℚ := 10
  labor_rate : ℚ := 25
  operators_per_machine : ℤ := 1
  overhead_rate : ℚ := 15
  machine_cost : ℚ := 50
  defect_rate : ℚ := 2/100
  rework_rate : ℚ := 5/100
  downtime_rate : ℚ := 3/100
  buffer_capacity : ℤ := 50
  throughput_target : ℚ := 100
deriving DecidableEq

/-- The `"total_cost_per_hour"` entry of `SimulationConfig.get_hourly_costs`
(src/config/simulation_config.py, lines 117-128); the only entry read by
`Machine._complete_job`. -/
def SimulationConfig.hourly_total_cost (c : SimulationConfig) : ℚ :=
  c.labor_rate * (c.operators_per_machine : ℚ) + c.machine_cost + c.overhead_rate

/-- Python `Job` (src/models/job.py).  The legacy `src/models.py` `Job` dataclass is
the same record without the quality and cost fields; both are `@dataclass`es,
so Python `==` (used by `list.remove` / `in`) is field equality, matching
`DecidableEq` here.  The cost fields `material_cost`/`processing_cost`/
`total_cost` are never written by the modelled code and are omitted. -/
structure Job where
  id : ℕ
  batch_size : ℤ
  arrival_time : ℚ
  required_machines : List String
  current_step : ℕ := 0
  start_time : Option ℚ := none
  completion_time : Option ℚ := none
  priority : ℤ := 1
  is_defective : Bool := false
  needs_rework : Bool := false
  rework_count : ℤ := 0
deriving DecidableEq

instance : BEq Job := instBEqOfDecidableEq

/-- Python `Job.advance_step` (src/models/job.py): returns whether the step index was
advanced, together with the mutated job. -/
def Job.advance_step (j : Job) : Bool × Job :=
  if j.current_step < j.required_machines.length then
    (true, { j with current_step := j.current_step + 1 })
  else
    (false, j)

/-- Python `Job.get_next_machine` (src/models/job.py). -/
def Job.get_next_machine (j : Job) : Option String :=
  j.required_machines.get? j.current_step

namespace Models

/-- Python `Machine` (src/models/machine.py), without the purely visual fields (see
the file header).  `queue` is a `deque(maxlen=100)`; the bound only matters in
`add_job`, which checks it before inserting. -/
structure Machine where
  name : String
  machine_type : String
  base_time : ℚ
  setup_time : ℚ
  config : Option SimulationConfig := none
  queue : List Job := []
  current_job : Option Job := none
  is_working : Bool := false
  is_down : Bool := false
  work_start_time : ℚ := 0
  work_end_time : ℚ := 0
  downtime_start : ℚ := 0
  downtime_end : ℚ := 0
  total_working_time : ℚ := 0
  total_output : ℤ := 0
  total_defects : ℤ := 0
  total_rework : ℤ := 0
  total_downtime : ℚ := 0
  last_update_time : ℚ := 0
  total_operating_cost : ℚ := 0
  total_material_cost : ℚ := 0
  total_defect_cost : ℚ := 0
  cached_utilization : ℚ := 0
  cached_throughput : ℚ := 0
  cache_time : ℚ := 0
  cache_duration : ℚ := 1/2
  quality_score : ℚ := 100
  buffer_count : ℕ := 0
  production_line : Option String := none
deriving DecidableEq

/-- Python `Machine.__init__` (src/models/machine.py): a fresh machine.  The Python
class has no `production_line` attribute until `ProductionLine.add_machine`
sets one; `hasattr(machine, 'production_line') and machine.production_line`
is modelled as `production_line = some _`. -/
def Machine.new (name machine_type : String) (base_time setup_time : ℚ)
    (config : Option SimulationConfig := none) : Machine :=
  { name := name, machine_type := machine_type,
    base_time := base_time, setup_time := setup_time, config := config }

/-- Python `Machine.calculate_cycle_time` (src/models/machine.py, lines 66-70):
`base_time` alone when `batch_size <= 0`. -/
def Machine.calculate_cycle_time (m : Machine) (batch_size : ℤ) : ℚ :=
  if batch_size ≤ 0 then m.base_time
  else m.base_time + m.setup_time / (batch_size : ℚ)

/-- The insertion loop inside `Machine.add_job` (src/models/machine.py,
lines 80-89): scan from the front, insert before the first job whose priority
is strictly lower (`job.priority > existing_job.priority`), else append.  The
legacy `src/models.py` `add_job` (lines 73-86) runs the identical scan (via a
list copy of the deque). -/
def insertByPriority (j : Job) : List Job → List Job
  | [] => [j]
  | e :: rest =>
      if j.priority > e.priority then j :: e :: rest
      else e :: insertByPriority j rest

/-- Python `Machine.add_job` (src/models/machine.py, lines 72-92): capacity checks
(`config.buffer_capacity` when a config is attached, then the deque bound
100), then priority insertion; returns the Python `bool` and the new state. -/
def Machine.add_job (m : Machine) (j : Job) : Bool × Machine :=
  if m.config.isSome ∧ ∀ c ∈ m.config, (m.queue.length : ℤ) ≥ c.buffer_capacity then
    (false, m)
  else if m.queue.length ≥ 100 then
    (false, m)
  else
    let q := insertByPriority j m.queue
    (true, { m with queue := q, buffer_count := q.length })

/-- Python `Machine.start_processing` (src/models/machine.py, lines 94-105): pops the
queue head into `current_job` and stamps `start_time := current_time`
unconditionally (`self.current_job.start_time = current_time`). -/
def Machine.start_processing (m : Machine) (current_time : ℚ) : Bool × Machine :=
  match m.is_working, m.queue with
  | false, j :: rest =>
      let j := { j with start_time := some current_time }
      let cycle_time := m.calculate_cycle_time j.batch_size
      (true, { m with queue := rest, current_job := some j,
                      work_start_time := current_time,
                      work_end_time := current_time + cycle_time,
                      is_working := true })
  | _, _ => (false, m)

/-- Outcomes of the stochastic draws made during one `Machine.update` call:
`breakdown` is the outcome of `random.random() < config.downtime_rate / 3600`
(only consulted when a config is attached), `downtime_duration` is
`random.uniform(5, 30) / 60`, and `defect` / `rework` are the outcomes of the
quality draws in `Machine._complete_job`. -/
structure UpdateOracle where
  breakdown : Bool := false
  downtime_duration : ℚ := 1/4
  defect : Bool := false
  rework : Bool := false
deriving DecidableEq

/-- Python `Machine._trigger_downtime` (src/models/machine.py, lines 131-140).  The
source ends with `if self.is_working: self.is_working = False`, equivalent to
setting `is_working := false` unconditionally. -/
def Machine.trigger_downtime (m : Machine) (current_time duration : ℚ) : Machine :=
  { m with is_down := true,
           downtime_start := current_time,
           downtime_end := current_time + duration,
           is_working := false }

/-- Python `Machine._end_downtime` (src/models/machine.py, lines 142-148). -/
def Machine.end_downtime (m : Machine) (current_time : ℚ) : Machine :=
  { m with total_downtime := m.total_downtime + (current_time - m.downtime_start),
           is_down := false,
           downtime_start := 0,
           downtime_end := 0 }

/-- Python `Machine._update_quality_score` (src/models/machine.py, lines 214-221),
evaluated on given totals. -/
def qualityScore (total_output total_defects : ℤ) : ℚ :=
  if total_output + total_defects > 0 then
    ((total_output : ℚ) / ((total_output : ℚ) + (total_defects : ℚ))) * 100
  else 100

/-- Python `Machine._complete_job` (src/models/machine.py, lines 150-205).  The
source unconditionally dereferences `self.current_job`; the `none` case (which
would raise in Python, and is unreachable while `is_working → current_job`
is set) returns the state unchanged. -/
def Machine.complete_job (m : Machine) (current_time : ℚ) (ω : UpdateOracle) :
    Option Job × Machine :=
  match m.current_job with
  | none => (none, m)
  | some j =>
      let is_defective := m.config.isSome ∧ ω.defect = true
      let needs_rework := m.config.isSome ∧ ω.defect = false ∧ ω.rework = true
      let completion_time :=
        if m.config.isSome ∧ ω.defect = false ∧ ω.rework = true then
          current_time + m.calculate_cycle_time j.batch_size * (1/2)
        else current_time
      let j := { j with completion_time := some completion_time,
                        is_defective := decide is_defective,
                        needs_rework := decide needs_rework }
      let total_defects :=
        if is_defective then m.total_defects + j.batch_size else m.total_defects
      let total_defect_cost :=
        match m.config with
        | some c => if ω.defect then m.total_defect_cost + (j.batch_size : ℚ) * c.defect_cost
                    else m.total_defect_cost
        | none => m.total_defect_cost
      let total_rework :=
        if needs_rework then m.total_rework + j.batch_size else m.total_rework
      let total_material_cost :=
        match m.config with
        | some c => m.total_material_cost + (j.batch_size : ℚ) * c.material_cost
        | none => m.total_material_cost
      let work_duration := m.work_end_time - m.work_start_time
      let total_output :=
        if is_defective then m.total_output else m.total_output + j.batch_size
      let total_operating_cost :=
        match m.config with
        | some c => m.total_operating_cost + work_duration * c.hourly_total_cost
        | none => m.total_operating_cost
      (some j,
       { m with total_defects := total_defects,
                total_defect_cost := total_defect_cost,
                total_rework := total_rework,
                total_material_cost := total_material_cost,
                total_working_time := m.total_working_time + work_duration,
                total_output := total_output,
                total_operating_cost := total_operating_cost,
                quality_score := qualityScore total_output total_defects,
                current_job := none,
                is_working := false,
                last_update_time := current_time })

/-- Python `Machine.update` (src/models/machine.py, lines 107-129): possible
breakdown trigger, downtime completion, then job completion; returns the
completed job, if any.  The animation/visual updates are omitted. -/
def Machine.update (m : Machine) (current_time : ℚ) (ω : UpdateOracle) :
    Option Job × Machine :=
  let m1 := if m.is_down = false ∧ m.config.isSome ∧ ω.breakdown = true then
              m.trigger_downtime current_time ω.downtime_duration
            else m
  let m2 := if m1.is_down = true ∧ current_time ≥ m1.downtime_end then
              m1.end_downtime current_time
            else m1
  if m2.is_working = true ∧ m2.is_down = false ∧ current_time ≥ m2.work_end_time then
    m2.complete_job current_time ω
  else (none, m2)

/-- Python `Machine.get_utilization` (src/models/machine.py, lines 223-236): returns
the cached value while `time.time() - _cache_time < _cache_duration`;
otherwise recomputes `(total_working_time / total_time) * 100` (with no upper
cap) guarded by `total_time <= 0`, caches it and refreshes the cache clock. -/
def Machine.get_utilization (m : Machine) (total_time wall_now : ℚ) : ℚ × Machine :=
  if wall_now - m.cache_time < m.cache_duration then
    (m.cached_utilization, m)
  else
    let v := if total_time ≤ 0 then 0 else m.total_working_time / total_time * 100
    (v, { m with cached_utilization := v, cache_time := wall_now })

/-- Python `Machine.get_throughput` (src/models/machine.py, lines 238-250): like
`get_utilization` but computing `total_output / total_time`; the source does
not refresh `_cache_time` here. -/
def Machine.get_throughput (m : Machine) (total_time wall_now : ℚ) : ℚ × Machine :=
  if wall_now - m.cache_time < m.cache_duration then
    (m.cached_throughput, m)
  else
    let v := if total_time ≤ 0 then 0 else (m.total_output : ℚ) / total_time
    (v, { m with cached_throughput := v })

end Models

namespace Legacy

/-- The legacy `Machine` (src/models.py), restricted to the fields its
modelled methods read or write (visual fields omitted as in `Models.Machine`);
it has no config, no breakdown state and no quality model. -/
structure Machine where
  name : String
  machine_type : String
  base_time : ℚ
  setup_time : ℚ
  queue : List Job := []
  current_job : Option Job := none
  is_working : Bool := false
  work_start_time : ℚ := 0
  work_end_time : ℚ := 0
  total_working_time : ℚ := 0
  total_output : ℤ := 0
  cached_utilization : ℚ := 0
  cached_throughput : ℚ := 0
  cache_time : ℚ := 0
  cache_duration : ℚ := 1/2
deriving DecidableEq

/-- Python `Machine.calculate_cycle_time` (src/models.py, lines 62-66):
`base_time + setup_time` when `batch_size <= 0`. -/
def Machine.calculate_cycle_time (m : Machine) (batch_size : ℤ) : ℚ :=
  if batch_size ≤ 0 then m.base_time + m.setup_time
  else m.base_time + m.setup_time / (batch_size : ℚ)

/-- Python `Machine.add_job` (src/models.py, lines 68-87): deque bound 100, then the
same priority-insertion scan as the package variant (the source copies the
deque to a list, inserts, and rebuilds the deque). -/
def Machine.add_job (m : Machine) (j : Job) : Bool × Machine :=
  if m.queue.length ≥ 100 then (false, m)
  else (true, { m with queue := Models.insertByPriority j m.queue })

/-- Python `Machine.start_processing` (src/models.py, lines 89-100): stamps the
popped job's `start_time` only `if self.current_job.start_time is None`. -/
def Machine.start_processing (m : Machine) (current_time : ℚ) : Machine :=
  match m.is_working, m.queue with
  | false, j :: rest =>
      let j := if j.start_time = none then { j with start_time := some current_time } else j
      let cycle_time := m.calculate_cycle_time j.batch_size
      { m with queue := rest, current_job := some j,
               is_working := true,
               work_start_time := current_time,
               work_end_time := current_time + cycle_time }
  | _, _ => m

/-- Python `Machine.get_utilization` (src/models.py, lines 151-164): as the package
variant but the recomputed value is capped,
`min((total_working_time / total_time) * 100, 100)`. -/
def Machine.get_utilization (m : Machine) (total_time wall_now : ℚ) : ℚ × Machine :=
  if wall_now - m.cache_time < m.cache_duration then
    (m.cached_utilization, m)
  else
    let v := if total_time ≤ 0 then 0 else min (m.total_working_time / total_time * 100) 100
    (v, { m with cached_utilization := v, cache_time := wall_now })

/-- Python `Machine.get_throughput` (src/models.py, lines 166-178): `_cache_time` is
not refreshed here, as in the package variant. -/
def Machine.get_throughput (m : Machine) (total_time wall_now : ℚ) : ℚ × Machine :=
  if wall_now - m.cache_time < m.cache_duration then
    (m.cached_throughput, m)
  else
    let v := if total_time ≤ 0 then 0 else (m.total_output : ℚ) / total_time
    (v, { m with cached_throughput := v })

end Legacy

namespace Models

/-- Python `ProductionStep` (src/models/production_line.py).  The source stores a
reference to the `Machine` object; `analyze_bottleneck` and `simulate_flow`
(the methods modelled here) never read it, so only its name is kept. -/
structure ProductionStep where
  machine_name : String
  step_number : ℕ
  cycle_time : ℚ
  setup_time : ℚ := 0
  quality_check : Bool := false
deriving DecidableEq

/-- Python `ProductionRoute` (src/models/production_line.py). -/
structure ProductionRoute where
  product_name : String
  steps : List ProductionStep := []
  total_cycle_time : ℚ := 0
deriving DecidableEq

/-- Python `ProductionLine` (src/models/production_line.py), restricted to the
simulation state (layout fields omitted).  `routes` is a dict keyed by product
name, modelled as an association list in insertion order. -/
structure ProductionLine where
  name : String
  line_id : String
  machines : List Machine := []
  routes : List ProductionRoute := []
  takt_time : ℚ := 0
deriving DecidableEq

/-- Python `ProductionRoute.calculate_total_cycle_time` (src/models/production_line.py). -/
def ProductionRoute.calculate_total_cycle_time (r : ProductionRoute) : ProductionRoute :=
  { r with total_cycle_time := (r.steps.map ProductionStep.cycle_time).sum }

/-- The `for i, (machine_name, cycle_time, setup_time) in enumerate(zip(...))`
loop of `ProductionLine.create_production_route`: `i` is the running index,
`total` the length of `machine_sequence`; names that resolve to no machine of
the line are silently skipped; `quality_check` is set on the last index. -/
def buildRouteSteps (line_machines : List Machine) (total : ℕ) :
    ℕ → List (String × ℚ × ℚ) → List ProductionStep
  | _, [] => []
  | i, (mname, ct, st) :: rest =>
      if (line_machines.find? fun m => m.name = mname).isSome then
        { machine_name := mname, step_number := i + 1, cycle_time := ct,
          setup_time := st, quality_check := i = total - 1 } ::
          buildRouteSteps line_machines total (i + 1) rest
      else buildRouteSteps line_machines total (i + 1) rest

/-- Python `ProductionLine.create_production_route` (src/models/production_line.py,
lines 115-141). -/
def ProductionLine.create_production_route (line : ProductionLine)
    (product_name : String) (machine_sequence : List String)
    (cycle_times setup_times : List ℚ) : ProductionLine × ProductionRoute :=
  let steps := buildRouteSteps line.machines machine_sequence.length 0
    (machine_sequence.zip (cycle_times.zip setup_times))
  let route := ProductionRoute.calculate_total_cycle_time
    { product_name := product_name, steps := steps }
  ({ line with routes := line.routes ++ [route] }, route)

/-- Python `ProductionLine.analyze_bottleneck` (src/models/production_line.py,
lines 145-168): a machine is flagged when `base_time >= max_cycle_time * 0.9`
(max over every step of every route, starting from 0) or
`queue length >= max_queue_length * 0.8` (max over the line's machines). -/
def ProductionLine.analyze_bottleneck (line : ProductionLine) : List Machine :=
  if line.machines.isEmpty then []
  else
    let max_cycle_time : ℚ := line.routes.foldl
      (fun acc r => r.steps.foldl (fun a s => if s.cycle_time > a then s.cycle_time else a) acc) 0
    let max_queue_length : ℕ := (line.machines.map (fun m => m.queue.length)).foldl max 0
    line.machines.filter fun m =>
      m.base_time ≥ max_cycle_time * (9/10) ∨
      (m.queue.length : ℚ) ≥ (max_queue_length : ℚ) * (8/10)

/-- Python `ProductionLine.simulate_flow` (src/models/production_line.py,
lines 231-246): indexes the line's machine list by `job.current_step`; if that
machine is idle with an empty queue, enqueue and start it immediately and
report success (ignoring `add_job`'s result), else report `add_job`'s result. -/
def ProductionLine.simulate_flow (line : ProductionLine) (job : Job)
    (current_time : ℚ) : Bool × ProductionLine :=
  match line.machines.get? job.current_step with
  | none => (false, line)
  | some m =>
      if m.is_working = false ∧ m.queue = [] then
        let m1 := (m.add_job job).2
        let m2 := (m1.start_processing current_time).2
        (true, { line with machines := line.machines.set job.current_step m2 })
      else
        let (ok, m1) := m.add_job job
        (ok, { line with machines := line.machines.set job.current_step m1 })

/-- Python `Factory` (src/models/factory.py).  `machines` is a name-keyed dict whose
values are mutated in place; it is modelled as a list (insertion order) with
update-by-name standing for the in-place mutation.  The `_machine_lookup` /
`_wip_cache` performance mirrors are omitted. -/
structure Factory where
  machines : List Machine := []
  production_lines : List ProductionLine := []
  jobs : List Job := []
  completed_jobs : List Job := []
  job_counter : ℕ := 0
deriving DecidableEq

/-- Python `Factory.get_machine` (src/models/factory.py): name lookup. -/
def Factory.get_machine (f : Factory) (machine_name : String) : Option Machine :=
  f.machines.find? fun m => m.name = machine_name

/-- Write back a machine mutated in place (the Python dict keeps holding the
same object, so mutation needs no dict update; here the entry with the same
name is replaced). -/
def Factory.set_machine (f : Factory) (m : Machine) : Factory :=
  { f with machines := f.machines.map fun m0 => if m0.name = m.name then m else m0 }

/-- Python `Factory.get_production_line` (src/models/factory.py). -/
def Factory.get_production_line (f : Factory) (line_id : String) : Option ProductionLine :=
  f.production_lines.find? fun l => l.line_id = line_id

/-- Write back a production line mutated in place. -/
def Factory.set_production_line (f : Factory) (l : ProductionLine) : Factory :=
  { f with production_lines :=
      f.production_lines.map fun l0 => if l0.line_id = l.line_id then l else l0 }

/-- Python `Factory.create_job` (src/models/factory.py, lines 94-105): bumps the
counter, appends the new job to `self.jobs` and returns it.  `arrival_time`
is `time.time()`, passed here as `wall_now`. -/
def Factory.create_job (f : Factory) (batch_size : ℤ) (required_machines : List String)
    (priority : ℤ := 1) (wall_now : ℚ := 0) : Job × Factory :=
  let job : Job :=
    { id := f.job_counter + 1, batch_size := batch_size, arrival_time := wall_now,
      required_machines := required_machines, priority := priority }
  (job, { f with job_counter := f.job_counter + 1, jobs := f.jobs ++ [job] })

/-- Python `Factory.route_job` (src/models/factory.py, lines 107-123): resolves the
job's current required machine by name; if that machine belongs to a
production line, delegates to `ProductionLine.simulate_flow`, else to
`Machine.add_job`.  Note that it never removes the job from `Factory.jobs`. -/
def Factory.route_job (f : Factory) (job : Job) (wall_now : ℚ := 0) : Bool × Factory :=
  if job.current_step < job.required_machines.length then
    match f.get_machine (job.required_machines.getD job.current_step "") with
    | none => (false, f)
    | some machine =>
        match machine.production_line with
        | some line_id =>
            match f.get_production_line line_id with
            | some line =>
                let (ok, line1) := line.simulate_flow job wall_now
                (ok, f.set_production_line line1)
            | none =>
                let (ok, m1) := machine.add_job job
                if ok then (true, f.set_machine m1) else (false, f.set_machine m1)
        | none =>
            let (ok, m1) := machine.add_job job
            if ok then (true, f.set_machine m1) else (false, f.set_machine m1)
  else (false, f)

/-- Python `Factory.process_completed_job` (src/models/factory.py, lines 132-143):
`advance_step`, then either re-route (appending to `self.jobs` on routing
failure) or — only when `advance_step` reports no step left — move the job to
`completed_jobs` (removing it from `self.jobs` if present, via `==`). -/
def Factory.process_completed_job (f : Factory) (job : Job) (wall_now : ℚ := 0) : Factory :=
  match job.advance_step with
  | (true, job1) =>
      let (ok, f1) := f.route_job job1 wall_now
      if ok then f1 else { f1 with jobs := f1.jobs ++ [job1] }
  | (false, job1) =>
      { f with completed_jobs := f.completed_jobs ++ [job1],
               jobs := if f.jobs.contains job1 then f.jobs.erase job1 else f.jobs }

end Models

/-- Machine states reachable through the operations named by the invariant
claims: a freshly constructed machine, then any interleaving of `add_job`,
`update` (at any time, under any draw outcomes) and `start_processing` — the
latter only on machines that are not down, which is the amended side
condition (the source's `start_processing` itself performs no `is_down`
check, and `SimulationManager.step` calls it on every machine). -/
inductive MReach : Models.Machine → Prop where
  | init (name machine_type : String) (base_time setup_time : ℚ)
      (config : Option SimulationConfig) :
      MReach (Models.Machine.new name machine_type base_time setup_time config)
  | add_job (m : Models.Machine) (j : Job) : MReach m → MReach (m.add_job j).2
  | start_processing (m : Models.Machine) (t : ℚ) : MReach m →
      m.is_down = false → MReach (m.start_processing t).2
  | update (m : Models.Machine) (t : ℚ) (ω : Models.UpdateOracle) : MReach m →
      MReach (m.update t ω).2

section Fixtures

open Models

/-- A job fixture with the given id and priority (batch 10, no route). -/
def mkJob (id : ℕ) (priority : ℤ) : Job :=
  { id := id, batch_size := 10, arrival_time := 0,
    required_machines := [], priority := priority }

/-- C2 fixture: empty machine, then J1 (priority 1), J2 (priority 3),
J3 (priority 1) added in that order. -/
def c2_queue : List Job :=
  ((((Machine.new "M-1" "Cutting" 2 10 none).add_job
      (mkJob 1 1)).2.add_job (mkJob 2 3)).2.add_job (mkJob 3 1)).2.queue

/-- C3 fixture: the spec's machine with `base_time=2.0`, `setup_time=10.0`. -/
def c3_machine : Machine := Machine.new "M" "T" 2 10 none

/-- C3 fixture, legacy variant of the same machine. -/
def c3_legacy : Legacy.Machine := { name := "M", machine_type := "T", base_time := 2, setup_time := 10 }

/-- C4 fixture: a configured machine (default config, `downtime_rate = 0.03 > 0`,
so the breakdown draw can come out true) with one queued job, after an
`update` in which the breakdown draw fired: the machine is now down. -/
def c4_down_machine : Machine :=
  ((((Machine.new "M" "T" 1 1 (some {})).add_job (mkJob 1 1)).2).update 0
    { breakdown := true }).2

/-- C5 fixture: a package machine whose accumulated working time exceeds the
queried horizon, with the metrics cache expired. -/
def c5_machine : Machine :=
  { Machine.new "M" "T" 1 1 none with total_working_time := 200, cache_time := -10 }

/-- C5/C10 witness fixture: a fresh legacy machine whose cache window is set
to zero so that every query recomputes. -/
def c5_legacy : Legacy.Machine :=
  { name := "M", machine_type := "T", base_time := 1, setup_time := 0, cache_duration := 0 }

/-- C10 witness fixture: the package twin of `c5_legacy`. -/
def c10_fresh : Machine :=
  { Machine.new "M" "T" 1 0 none with cache_duration := 0 }

/-- C6 fixture: a config whose buffer capacity exceeds the deque bound 100. -/
def cfg150 : SimulationConfig := { buffer_capacity := 150 }

/-- C6 fixture: machine configured with capacity 150 whose queue holds 100
jobs (the most `add_job` can ever have accepted). -/
def c6_machine : Machine :=
  { Machine.new "M" "T" 1 1 (some cfg150) with queue := List.replicate 100 (mkJob 1 1) }

/-- C1/C7 fixture: a factory with the single machine `M1`. -/
def one_machine_factory : Factory := { machines := [Machine.new "M1" "T" 1 0 none] }

/-- C1 fixture: `Factory.create_job(5, ["M1"], priority=1)`. -/
def c1_created : Job × Factory := one_machine_factory.create_job 5 ["M1"] 1 0

/-- C1 fixture: the created job handed straight to `Factory.route_job`, as
the application entry points do (src/main.py lines 558-559,
src/factory_sim.py lines 1962-1963, src/dialogs.py lines 158-159). -/
def c1_routed : Bool × Factory := c1_created.2.route_job c1_created.1 0

/-- C7 fixture: the job `M1` has just finished processing (one-step route,
`current_step = 0`), as handed to `Factory.process_completed_job` by
`SimulationManager.step`. -/
def c7_finished_job : Job :=
  { id := 1, batch_size := 5, arrival_time := 0,
    required_machines := ["M1"], current_step := 0 }

/-- C7 fixture: the factory after `process_completed_job` on that job. -/
def c7_after : Factory := one_machine_factory.process_completed_job c7_finished_job 0

/-- C8 fixture: the spec's line, machines A, B, C, D with base times
1, 1, 5, 1 (and the given queues), a route over all four with cycle times
equal to the base times (as `Factory.create_sample_production_line` builds
its route). -/
def c8_line (qa qb qc qd : List Job) : ProductionLine :=
  (ProductionLine.create_production_route
    { name := "L", line_id := "L1",
      machines :=
        [{ Machine.new "A" "T" 1 0 none with queue := qa },
         { Machine.new "B" "T" 1 0 none with queue := qb },
         { Machine.new "C" "T" 5 0 none with queue := qc },
         { Machine.new "D" "T" 1 0 none with queue := qd }] }
    "P" ["A", "B", "C", "D"] [1, 1, 5, 1] [0, 0, 0, 0]).1

/-- C8 fixture: the names reported by `analyze_bottleneck` on that line. -/
def c8_names (qa qb qc qd : List Job) : List String :=
  ((c8_line qa qb qc qd).analyze_bottleneck).map Machine.name

/-- C8 fixture: the line's maximal queue length, as `analyze_bottleneck`
computes it. -/
def c8_maxq (qa qb qc qd : List Job) : ℕ :=
  (((c8_line qa qb qc qd).machines).map fun m => m.queue.length).foldl max 0

/-- C9 fixture: an idle machine whose queued job already carries
`start_time = 5` from an earlier processing step. -/
def c9_machine : Machine :=
  { Machine.new "M" "T" 1 0 none with queue := [{ mkJob 1 1 with start_time := some 5 }] }

/-- C10 fixture: a machine with a live cache (`cache_time = 0`, queried at
wall time 0) holding a nonzero cached utilization. -/
def c10_machine : Machine :=
  { Machine.new "M" "T" 1 1 none with cached_utilization := 50, cache_time := 0 }

end Fixtures

/-! ## Helper lemmas -/

theorem insertByPriority_eq_insert_before_first_lower (j : Job) (l : List Job) :
    Models.insertByPriority j l =
      l.takeWhile (fun e => decide (e.priority ≥ j.priority)) ++
        j :: l.dropWhile (fun e => decide (e.priority ≥ j.priority)) := by
  induction l with
  | nil => rfl
  | cons e rest ih =>
      by_cases h : j.priority > e.priority
      · have he : decide (e.priority ≥ j.priority) = false := by
          simpa using not_le.mpr h
        simp [Models.insertByPriority, h, he]
      · have he : decide (e.priority ≥ j.priority) = true := by
          simpa using not_lt.mp h
        simp [Models.insertByPriority, h, he, ih]

theorem filter_insertByPriority_of_sorted (j : Job) (l : List Job)
    (h : l.Pairwise (fun a b => a.priority ≥ b.priority)) :
    (Models.insertByPriority j l).filter (fun e => decide (e.priority = j.priority)) =
      l.filter (fun e => decide (e.priority = j.priority)) ++ [j] := by
  induction l with
  | nil => simp [Models.insertByPriority]
  | cons e rest ih =>
      rcases List.pairwise_cons.mp h with ⟨he, hrest⟩
      by_cases hgt : j.priority > e.priority
      · have hnil : (e :: rest).filter (fun e => decide (e.priority = j.priority)) = [] := by
          rw [List.filter_eq_nil_iff]
          intro x hx
          rcases List.mem_cons.mp hx with rfl | hx
          · simpa using (by omega : ¬ x.priority = j.priority)
          · have := he x hx
            simpa using (by omega : ¬ x.priority = j.priority)
        simp only [Models.insertByPriority, if_pos hgt, hnil, List.filter_cons]
        simp [hnil, List.filter_cons_of_neg]
      · by_cases heq : e.priority = j.priority <;>
          simp [Models.insertByPriority, hgt, List.filter_cons, ih hrest, heq]

/-! ## Claims -/

/-- C2: `Machine.add_job` performs a stable priority insertion — the new job
is inserted immediately before the first queued job whose priority is strictly
lower (that is, after the maximal prefix of jobs whose priority is at least
the new job's) and appended at the tail when no such job exists; among jobs of
equal priority arrival order is preserved (on the priority-sorted queues that
repeated insertion produces, the equal-priority band of the result is the old
band followed by the new job); and adding J1 (priority 1), J2 (priority 3),
J3 (priority 1) to an empty queue yields dequeue order J2, J1, J3. -/
theorem add_job_stable_priority_insertion :
    (∀ (j : Job) (l : List Job),
        Models.insertByPriority j l =
          l.takeWhile (fun e => decide (e.priority ≥ j.priority)) ++
            j :: l.dropWhile (fun e => decide (e.priority ≥ j.priority))) ∧
    (∀ (j : Job) (l : List Job), l.Pairwise (fun a b => a.priority ≥ b.priority) →
        (Models.insertByPriority j l).filter (fun e => decide (e.priority = j.priority)) =
          l.filter (fun e => decide (e.priority = j.priority)) ++ [j]) ∧
    c2_queue.map Job.id = [2, 1, 3] :=
  ⟨fun j l => insertByPriority_eq_insert_before_first_lower j l,
   fun j l h => filter_insertByPriority_of_sorted j l h,
   by decide⟩

/-- C2 witness: the stability clause applied to the singleton queue holding
J1 (priority 1) with new job J3 (priority 1). -/
theorem add_job_stable_priority_insertion_witness :
    (Models.insertByPriority (mkJob 3 1) [mkJob 1 1]).filter
        (fun e => decide (e.priority = (mkJob 3 1).priority)) =
      [mkJob 1 1].filter (fun e => decide (e.priority = (mkJob 3 1).priority)) ++ [mkJob 3 1] :=
  add_job_stable_priority_insertion.2.1 (mkJob 3 1) [mkJob 1 1] (by simp)

/-- C3 counterexample: on the machine with `base_time = 2.0`,
`setup_time = 10.0`, the package variant (src/models/machine.py) of
`calculate_cycle_time` returns `base_time = 2.0` at `batch_size = 0`, not the
claimed `base_time + setup_time = 12.0`. -/
theorem cycle_time_zero_batch_counterexample :
    c3_machine.calculate_cycle_time 0 = 2 ∧ c3_machine.calculate_cycle_time 0 ≠ 12 := by
  constructor <;>
    simp [c3_machine, Models.Machine.new, Models.Machine.calculate_cycle_time]

/-- C3 amended: both variants return `base_time + setup_time / batch_size`
for `batch_size > 0` (3.0 on the spec's machine at batch 10); at
`batch_size = 0` the package variant (src/models/machine.py) falls back to
`base_time` alone (2.0), while the legacy variant (src/models.py) falls back
to `base_time + setup_time` (12.0). -/
theorem cycle_time_amended :
    (∀ (m : Models.Machine) (lm : Legacy.Machine) (b : ℤ), 0 < b →
        m.calculate_cycle_time b = m.base_time + m.setup_time / (b : ℚ) ∧
        lm.calculate_cycle_time b = lm.base_time + lm.setup_time / (b : ℚ)) ∧
    (∀ m : Models.Machine, m.calculate_cycle_time 0 = m.base_time) ∧
    (∀ lm : Legacy.Machine, lm.calculate_cycle_time 0 = lm.base_time + lm.setup_time) ∧
    c3_machine.calculate_cycle_time 10 = 3 ∧
    c3_legacy.calculate_cycle_time 10 = 3 ∧
    c3_machine.calculate_cycle_time 0 = 2 ∧
    c3_legacy.calculate_cycle_time 0 = 12 := by
  refine ⟨fun m lm b hb => ?_, fun m => ?_, fun lm => ?_, ?_, ?_, ?_, ?_⟩ <;>
    simp [Models.Machine.calculate_cycle_time, Legacy.Machine.calculate_cycle_time,
      c3_machine, c3_legacy, Models.Machine.new] <;>
    first
      | omega
      | norm_num

/-- C3 witness: the positive-batch clause at `batch_size = 1`. -/
theorem cycle_time_amended_witness :
    c3_machine.calculate_cycle_time 1 =
        c3_machine.base_time + c3_machine.setup_time / ((1 : ℤ) : ℚ) ∧
    c3_legacy.calculate_cycle_time 1 =
        c3_legacy.base_time + c3_legacy.setup_time / ((1 : ℤ) : ℚ) :=
  cycle_time_amended.1 c3_machine c3_legacy 1 (by decide)

/-- C4 counterexample: `c4_down_machine` is reachable by `add_job` followed by
`update` with the breakdown draw firing (so it is down with a queued job);
`Machine.start_processing` — which `SimulationManager.step` (lines 79-80)
calls on every machine with no `is_down` check — then makes it simultaneously
down and working. -/
theorem down_and_working_counterexample :
    c4_down_machine.is_down = true ∧
    (c4_down_machine.start_processing 0).2.is_down = true ∧
    (c4_down_machine.start_processing 0).2.is_working = true := by
  norm_num [c4_down_machine, Models.Machine.new, Models.Machine.add_job,
    Models.Machine.update, Models.Machine.trigger_downtime, Models.Machine.end_downtime,
    Models.Machine.complete_job, Models.Machine.start_processing,
    Models.insertByPriority, mkJob]

/-- C4 amended: a machine is never simultaneously `is_down` and `is_working`
in any state reachable by `add_job` and `update` calls at any times and under
any draw outcomes, and by `start_processing` calls made while the machine is
not down; the unguarded `start_processing` of the source, called on a down
machine with a queued job, violates the invariant (see the counterexample). -/
theorem reachable_never_down_and_working (m : Models.Machine) (h : MReach m) :
    ¬(m.is_down = true ∧ m.is_working = true) := by
  induction h with
  | init name mt bt st cfg => simp [Models.Machine.new]
  | add_job m j hr ih =>
      have hd : (m.add_job j).2.is_down = m.is_down ∧
          (m.add_job j).2.is_working = m.is_working := by
        unfold Models.Machine.add_job
        split_ifs <;> simp
      rw [hd.1, hd.2]
      exact ih
  | start_processing m t hr hdown ih =>
      have hd : (m.start_processing t).2.is_down = m.is_down := by
        cases hw : m.is_working <;> cases hq : m.queue <;>
          simp [Models.Machine.start_processing, hw, hq]
      rw [hd, hdown]
      simp
  | update m t ω hr ih =>
      have hcompl : ∀ (m' : Models.Machine) (t' : ℚ),
          (m'.complete_job t' ω).2.is_down = m'.is_down := by
        intro m' t'
        cases hc : m'.current_job <;> simp [Models.Machine.complete_job, hc]
      dsimp only [Models.Machine.update]
      split_ifs with h1 h2 h3 h3 h2 h3 h3 <;>
        simp_all [Models.Machine.trigger_downtime, Models.Machine.end_downtime, hcompl]

/-- C4 witness: the invariant applied to a freshly constructed machine. -/
theorem reachable_never_down_and_working_witness :
    ¬((Models.Machine.new "M" "T" 1 1 none).is_down = true ∧
      (Models.Machine.new "M" "T" 1 1 none).is_working = true) :=
  reachable_never_down_and_working _ (MReach.init "M" "T" 1 1 none)

/-- C5 counterexample: the package `get_utilization` (src/models/machine.py)
applies no `min(..., 100)` cap, so a machine with `total_working_time = 200`
queried over `total_time = 100` (cache expired) reports 200, outside
`[0, 100]`. -/
theorem utilization_bound_counterexample :
    (c5_machine.get_utilization 100 0).1 = 200 ∧
    (c5_machine.get_utilization 100 0).1 > 100 := by
  norm_num [c5_machine, Models.Machine.new, Models.Machine.get_utilization]

/-- C5 amended: the legacy `get_utilization` (src/models.py) satisfies the
claim — on a cache miss with `total_time > 0` it returns
`min(total_working_time / total_time * 100, 100)`, which lies in `[0, 100]`
whenever the accumulated working time is nonnegative, even when it exceeds
`total_time`; the package variant (src/models/machine.py) instead returns the
uncapped ratio `total_working_time / total_time * 100`. -/
theorem utilization_bound_amended :
    (∀ (lm : Legacy.Machine) (total_time wall_now : ℚ),
        0 ≤ lm.total_working_time → 0 < total_time →
        lm.cache_duration ≤ wall_now - lm.cache_time →
        (lm.get_utilization total_time wall_now).1 =
            min (lm.total_working_time / total_time * 100) 100 ∧
        0 ≤ (lm.get_utilization total_time wall_now).1 ∧
        (lm.get_utilization total_time wall_now).1 ≤ 100) ∧
    (∀ (m : Models.Machine) (total_time wall_now : ℚ),
        0 < total_time → m.cache_duration ≤ wall_now - m.cache_time →
        (m.get_utilization total_time wall_now).1 =
            m.total_working_time / total_time * 100) := by
  constructor
  · intro lm total_time wall_now h0 htt hc
    have hmiss : ¬(wall_now - lm.cache_time < lm.cache_duration) := not_lt.mpr hc
    have hpos : ¬(total_time ≤ 0) := not_le.mpr htt
    simp only [Legacy.Machine.get_utilization, if_neg hmiss, if_neg hpos]
    refine ⟨trivial, le_min ?_ (by norm_num), min_le_right _ _⟩
    exact mul_nonneg (div_nonneg h0 htt.le) (by norm_num)
  · intro m total_time wall_now htt hc
    have hmiss : ¬(wall_now - m.cache_time < m.cache_duration) := not_lt.mpr hc
    have hpos : ¬(total_time ≤ 0) := not_le.mpr htt
    simp only [Models.Machine.get_utilization, if_neg hmiss, if_neg hpos]

/-- C5 witness: the legacy bound on a fresh legacy machine queried over one
time unit. -/
theorem utilization_bound_amended_witness :
    (c5_legacy.get_utilization 1 0).1 =
        min (c5_legacy.total_working_time / 1 * 100) 100 ∧
    0 ≤ (c5_legacy.get_utilization 1 0).1 ∧
    (c5_legacy.get_utilization 1 0).1 ≤ 100 :=
  utilization_bound_amended.1 c5_legacy 1 0 (by simp [c5_legacy])
    (by simp) (by simp [c5_legacy])

/-- C6 counterexample: with a configured buffer capacity of 150 and a queue
of 100 jobs — strictly below the configured capacity — `add_job` still
returns false (the `deque(maxlen=100)` bound fires first) and leaves the
machine unchanged. -/
theorem capacity_below_config_counterexample :
    (c6_machine.add_job (mkJob 2 1)).1 = false ∧
    (c6_machine.queue.length : ℤ) < cfg150.buffer_capacity ∧
    (c6_machine.add_job (mkJob 2 1)).2 = c6_machine := by
  norm_num [c6_machine, cfg150, Models.Machine.new, Models.Machine.add_job]

/-- C6 amended: the effective capacity is the smaller of the configured
buffer capacity and the deque bound 100 (just 100 when no config is
attached); at or above it `add_job` returns false with no mutation, strictly
below it `add_job` returns true and performs the priority insertion. -/
theorem capacity_enforcement_amended :
    ∀ (m : Models.Machine) (j : Job),
      ((m.queue.length : ℤ) ≥ m.config.elim 100 (fun c => min c.buffer_capacity 100) →
        m.add_job j = (false, m)) ∧
      ((m.queue.length : ℤ) < m.config.elim 100 (fun c => min c.buffer_capacity 100) →
        (m.add_job j).1 = true ∧
        (m.add_job j).2.queue = Models.insertByPriority j m.queue) := by
  intro m j
  unfold Models.Machine.add_job
  cases hc : m.config with
  | none =>
      simp only [hc, Option.elim, Option.isSome_none, Bool.false_eq_true, false_and, if_false]
      constructor
      · intro hge
        have : m.queue.length ≥ 100 := by exact_mod_cast hge
        simp [this]
      · intro hlt
        have : ¬(m.queue.length ≥ 100) := by omega
        simp [this]
  | some c =>
      simp only [hc, Option.elim]
      constructor
      · intro hge
        by_cases hcap : (m.queue.length : ℤ) ≥ c.buffer_capacity
        · simp [hcap]
        · have : m.queue.length ≥ 100 := by
            rcases le_total c.buffer_capacity 100 with hcb | hcb <;>
              [skip; skip] <;> omega
          simp [hcap, this]
      · intro hlt
        have hcap : ¬((m.queue.length : ℤ) ≥ c.buffer_capacity) := by
          rcases le_total c.buffer_capacity 100 with hcb | hcb <;> omega
        have h100 : ¬(m.queue.length ≥ 100) := by
          rcases le_total c.buffer_capacity 100 with hcb | hcb <;> omega
        simp [hcap, h100]

/-- C6 witness: both clauses at a fresh unconfigured machine with an empty
queue. -/
theorem capacity_enforcement_amended_witness :
    ((Models.Machine.new "M" "T" 1 0 none).add_job (mkJob 1 1)).1 = true ∧
    ((Models.Machine.new "M" "T" 1 0 none).add_job (mkJob 1 1)).2.queue =
      Models.insertByPriority (mkJob 1 1) (Models.Machine.new "M" "T" 1 0 none).queue :=
  (capacity_enforcement_amended (Models.Machine.new "M" "T" 1 0 none) (mkJob 1 1)).2
    (by decide)

/-- C1 (code bug): after `create_job` followed by a successful direct
`route_job` — the exact call sequence of the application's job-creation
handlers — job 1 sits in `Factory.jobs` AND in machine `M1`'s queue at once:
`route_job` never removes a routed job from the unrouted backlog, violating
the conservation invariant the spec states (and `SimulationManager.step`'s
routing pass would enqueue the backlogged copy a second time). -/
theorem conservation_violated_by_route_job :
    c1_routed.1 = true ∧
    c1_routed.2.jobs.map Job.id = [1] ∧
    (c1_routed.2.get_machine "M1").map (fun m => m.queue.map Job.id) = some [1] := by
  decide

/-- C7 (code bug): a job whose last routing step has just completed
(`current_step = 0` of the one-step route `["M1"]`) is handed to
`process_completed_job`: `advance_step` still returns true (it advances
`0 → 1`), so the code attempts `route_job`, which fails because step 1 does
not exist, and the finished job is appended to `Factory.jobs` — the
`completed_jobs` branch is never reached, so the job is deferred forever
instead of completing. -/
theorem finished_job_never_completed :
    c7_after.completed_jobs = [] ∧
    c7_after.jobs.map Job.id = [1] ∧
    c7_after.jobs.map Job.current_step = [1] := by
  decide

/-- C8 counterexample: on the line with base times 1, 1, 5, 1 and all queues
empty, `max_queue_length = 0`, so every machine satisfies the queue clause
`len >= 0 * 0.8` and `analyze_bottleneck` returns all four machines — three
of which have cycle time 1, strictly below 90% of 5, which the claim says
must be excluded. -/
theorem bottleneck_excludes_counterexample :
    c8_names [] [] [] [] = ["A", "B", "C", "D"] ∧
    ((c8_line [] [] [] []).analyze_bottleneck.map Models.Machine.base_time) = [1, 1, 5, 1] ∧
    (1 : ℚ) < (9/10) * 5 := by
  refine ⟨?_, ?_, by norm_num⟩ <;>
    norm_num [c8_names, c8_line, Models.ProductionLine.analyze_bottleneck,
      Models.ProductionLine.create_production_route, Models.buildRouteSteps,
      Models.ProductionRoute.calculate_total_cycle_time,
      Models.Machine.new, List.filter]

/-- C8 amended: on the line with base times 1, 1, 5, 1 and a route over all
four machines with those cycle times, `analyze_bottleneck` always includes
machine C (`base_time = 5`, which is within 90% of the maximal route cycle
time 5); a machine whose cycle time is below 90% of 5 (A, B, D) is included
exactly when its queue length reaches 80% of the line's maximal queue length
(in particular it is excluded whenever it is below that threshold). -/
theorem bottleneck_amended (qa qb qc qd : List Job) :
    "C" ∈ c8_names qa qb qc qd ∧
    ("A" ∈ c8_names qa qb qc qd ↔
      (qa.length : ℚ) ≥ (c8_maxq qa qb qc qd : ℚ) * (8/10)) ∧
    ("B" ∈ c8_names qa qb qc qd ↔
      (qb.length : ℚ) ≥ (c8_maxq qa qb qc qd : ℚ) * (8/10)) ∧
    ("D" ∈ c8_names qa qb qc qd ↔
      (qd.length : ℚ) ≥ (c8_maxq qa qb qc qd : ℚ) * (8/10)) := by
  norm_num [c8_names, c8_maxq, c8_line, Models.ProductionLine.analyze_bottleneck,
      Models.ProductionLine.create_production_route, Models.buildRouteSteps,
      Models.ProductionRoute.calculate_total_cycle_time,
      Models.Machine.new, List.filter]
  by_cases hA : ((qa.length : ℚ) ⊔ (qb.length : ℚ) ⊔ (qc.length : ℚ) ⊔ (qd.length : ℚ))
      * (4/5) ≤ (qa.length : ℚ) <;>
  by_cases hB : ((qa.length : ℚ) ⊔ (qb.length : ℚ) ⊔ (qc.length : ℚ) ⊔ (qd.length : ℚ))
      * (4/5) ≤ (qb.length : ℚ) <;>
  by_cases hD : ((qa.length : ℚ) ⊔ (qb.length : ℚ) ⊔ (qc.length : ℚ) ⊔ (qd.length : ℚ))
      * (4/5) ≤ (qd.length : ℚ) <;>
    simp [hA, hB, hD]

/-- C9 counterexample: the package `start_processing`
(src/models/machine.py) stamps `start_time = current_time` unconditionally:
started at time 9, the queued job whose `start_time` was already 5 comes out
with `start_time = 9`, so an earlier-step start time is not preserved. -/
theorem start_time_overwritten_counterexample :
    (c9_machine.queue.head?.bind Job.start_time) = some 5 ∧
    ((c9_machine.start_processing 9).2.current_job.bind Job.start_time) = some 9 ∧
    (5 : ℚ) ≠ 9 := by
  refine ⟨?_, ?_, by norm_num⟩ <;>
    simp [c9_machine, Models.Machine.new, Models.Machine.start_processing, mkJob]

/-- C9 amended: in both variants `start_processing` is a no-op when already
working or when the queue is empty, and otherwise pops the queue head into
`current_job`, sets `work_end_time = current_time + calculate_cycle_time
(batch_size)` and marks the machine working; but only the legacy variant
(src/models.py) preserves an already-set `start_time` — the package variant
(src/models/machine.py) overwrites it with `current_time` unconditionally. -/
theorem start_processing_amended :
    (∀ (m : Models.Machine) (t : ℚ), m.is_working = true ∨ m.queue = [] →
        m.start_processing t = (false, m)) ∧
    (∀ (lm : Legacy.Machine) (t : ℚ), lm.is_working = true ∨ lm.queue = [] →
        lm.start_processing t = lm) ∧
    (∀ (m : Models.Machine) (j : Job) (rest : List Job) (t : ℚ),
        m.is_working = false → m.queue = j :: rest →
        (m.start_processing t).2.queue = rest ∧
        (m.start_processing t).2.is_working = true ∧
        (m.start_processing t).2.work_end_time = t + m.calculate_cycle_time j.batch_size ∧
        (m.start_processing t).2.current_job = some { j with start_time := some t }) ∧
    (∀ (lm : Legacy.Machine) (j : Job) (rest : List Job) (t : ℚ),
        lm.is_working = false → lm.queue = j :: rest →
        (lm.start_processing t).queue = rest ∧
        (lm.start_processing t).is_working = true ∧
        (lm.start_processing t).work_end_time = t + lm.calculate_cycle_time j.batch_size ∧
        (lm.start_processing t).current_job =
          some (if j.start_time = none then { j with start_time := some t } else j)) := by
  refine ⟨fun m t h => ?_, fun lm t h => ?_, fun m j rest t hw hq => ?_, fun lm j rest t hw hq => ?_⟩
  · rcases h with h | h
    · cases hq : m.queue <;> simp [Models.Machine.start_processing, h, hq]
    · cases hw : m.is_working <;> simp [Models.Machine.start_processing, h, hw]
  · rcases h with h | h
    · cases hq : lm.queue <;> simp [Legacy.Machine.start_processing, h, hq]
    · cases hw : lm.is_working <;> simp [Legacy.Machine.start_processing, h, hw]
  · simp [Models.Machine.start_processing, hw, hq]
  · by_cases hs : j.start_time = none <;>
      simp [Legacy.Machine.start_processing, hw, hq, hs]

/-- C9 witness: the busy-path clause on the fixture machine. -/
theorem start_processing_amended_witness :
    (c9_machine.start_processing 9).2.queue = [] ∧
    (c9_machine.start_processing 9).2.is_working = true ∧
    (c9_machine.start_processing 9).2.work_end_time =
      9 + c9_machine.calculate_cycle_time ({ mkJob 1 1 with start_time := some 5 } : Job).batch_size ∧
    (c9_machine.start_processing 9).2.current_job =
      some { { mkJob 1 1 with start_time := some 5 } with start_time := some 9 } :=
  start_processing_amended.2.2.1 c9_machine ({ mkJob 1 1 with start_time := some 5 })
    [] 9 (by rfl) (by rfl)

/-- C10 counterexample: with a live cache (`wall_now - cache_time <
cache_duration`), `get_utilization` returns the cached value — here 50 —
rather than 0, even for `total_time = -1 ≤ 0`. -/
theorem nonpositive_time_cached_counterexample :
    (c10_machine.get_utilization (-1) 0).1 = 50 ∧ (50 : ℚ) ≠ 0 := by
  constructor
  · norm_num [c10_machine, Models.Machine.new, Models.Machine.get_utilization]
  · norm_num

/-- C10 amended: whenever the cache window has lapsed, both variants of
`get_utilization` and `get_throughput` return 0 for every `total_time ≤ 0`
(the division by `total_time` sits in the branch guarded by
`total_time > 0`, so neither query divides by a nonpositive total time and
both are total); under a live cache the previously cached value is returned
instead. -/
theorem nonpositive_time_queries_amended :
    (∀ (m : Models.Machine) (total_time wall_now : ℚ), total_time ≤ 0 →
        m.cache_duration ≤ wall_now - m.cache_time →
        (m.get_utilization total_time wall_now).1 = 0 ∧
        (m.get_throughput total_time wall_now).1 = 0) ∧
    (∀ (lm : Legacy.Machine) (total_time wall_now : ℚ), total_time ≤ 0 →
        lm.cache_duration ≤ wall_now - lm.cache_time →
        (lm.get_utilization total_time wall_now).1 = 0 ∧
        (lm.get_throughput total_time wall_now).1 = 0) := by
  constructor
  · intro m total_time wall_now htt hc
    have hmiss : ¬(wall_now - m.cache_time < m.cache_duration) := not_lt.mpr hc
    constructor <;>
      simp [Models.Machine.get_utilization, Models.Machine.get_throughput,
        if_neg hmiss, if_pos htt]
  · intro lm total_time wall_now htt hc
    have hmiss : ¬(wall_now - lm.cache_time < lm.cache_duration) := not_lt.mpr hc
    constructor <;>
      simp [Legacy.Machine.get_utilization, Legacy.Machine.get_throughput,
        if_neg hmiss, if_pos htt]

/-- C10 witness: both queries at `total_time = 0` on fresh machines with a
zero cache window. -/
theorem nonpositive_time_queries_amended_witness :
    ((c10_fresh.get_utilization 0 0).1 = 0 ∧ (c10_fresh.get_throughput 0 0).1 = 0) ∧
    ((c5_legacy.get_utilization 0 0).1 = 0 ∧ (c5_legacy.get_throughput 0 0).1 = 0) :=
  ⟨nonpositive_time_queries_amended.1 c10_fresh 0 0 (by simp)
      (by simp [c10_fresh, Models.Machine.new]),
   nonpositive_time_queries_amended.2 c5_legacy 0 0 (by simp)
      (by simp [c5_legacy])⟩

end FactorySim
